import Mathlib

/-!
Shallow embedding of the pendulum orchestrator (woodstock13/pendulum).

The embedding follows the TypeScript sources:
* collision geometry: `checkCollisionWith` in
  `server/src/simulation/pendulum-simulation.ts` and the distance test of
  `detectCollisions` in the master MQTT coordinator;
* the leader's MQTT coordinator (ack sets, quorum checks, collision scan,
  `resumeSimulation`) from the master coordination module and its config
  constants (`EXPECTED_INSTANCES = 5`);
* the follower's MQTT handler backed by `simulation-manager.ts`;
* the master registry operations (`POST /configure/:id`, `POST /control`,
  `POST /reset`) acting on per-instance records;
* the instance `POST /configure` handler and the `PendulumSimulation`
  constructor.

Numeric fields are modelled over `ℚ` (the comparisons in the claims are
exact); the square root in the distance test is `Real.sqrt` over the cast.
-/

namespace Pendulum

/-- Two dimensional bob position, `{x, y}` in the source (cm). -/
structure Position2D where
  x : ℚ
  y : ℚ
deriving DecidableEq, Repr

/-- Hardcoded collision radius of a bob (cm), `COLLISION_RADIUS = 2`. -/
def COLLISION_RADIUS : ℚ := 2

/-- Collision threshold: sum of the two fixed radii, `COLLISION_RADIUS * 2 = 4` (cm). -/
def MIN_COLLISION_DISTANCE : ℚ := COLLISION_RADIUS * 2

/-- Squared distance `dx*dx + dy*dy` between two bob positions. -/
def distSq (a b : Position2D) : ℚ :=
  (a.x - b.x) * (a.x - b.x) + (a.y - b.y) * (a.y - b.y)

/-- Distance between two bobs: `Math.sqrt(dx*dx + dy*dy)` of the source. -/
noncomputable def distanceR (a b : Position2D) : ℝ :=
  Real.sqrt ((distSq a b : ℚ) : ℝ)

/-- Collision test of `checkCollisionWith` (and of the detector's inner loop):
`distance < minDistance` with the strict comparison of the source. -/
def checkCollisionWith (a b : Position2D) : Prop :=
  distanceR a b < ((MIN_COLLISION_DISTANCE : ℚ) : ℝ)

theorem checkCollisionWith_iff_distSq (a b : Position2D) :
    checkCollisionWith a b ↔ distSq a b < 16 := by
  unfold checkCollisionWith distanceR MIN_COLLISION_DISTANCE COLLISION_RADIUS
  rw [Real.sqrt_lt' (by norm_num : (0 : ℝ) < ((((2 : ℚ) * 2 : ℚ)) : ℝ))]
  constructor
  · intro h
    have : ((distSq a b : ℚ) : ℝ) < ((16 : ℚ) : ℝ) := by push_cast at h ⊢; nlinarith
    exact_mod_cast this
  · intro h
    have : ((distSq a b : ℚ) : ℝ) < ((16 : ℚ) : ℝ) := by exact_mod_cast h
    push_cast at this ⊢
    nlinarith

instance (a b : Position2D) : Decidable (checkCollisionWith a b) :=
  decidable_of_iff (distSq a b < 16) (checkCollisionWith_iff_distSq a b).symm

/-- Embedding of a body position as a point of the Euclidean plane. -/
def toPoint (p : Position2D) : EuclideanSpace ℝ (Fin 2) :=
  fun i => if i.val = 0 then (p.x : ℝ) else (p.y : ℝ)

theorem dist_toPoint (a b : Position2D) :
    dist (toPoint a) (toPoint b) = distanceR a b := by
  rw [EuclideanSpace.dist_eq, distanceR]
  congr 1
  rw [Fin.sum_univ_two]
  simp only [toPoint, Real.dist_eq, distSq, Fin.val_zero, Fin.val_one]
  push_cast
  norm_num
  ring

/-- Fixed expected acknowledgment count of the master config, `EXPECTED_INSTANCES = 5`. -/
def EXPECTED_INSTANCES : ℕ := 5

/-- Maximum number of instances of the master config, `MAX_INSTANCES = 5`. -/
def MAX_INSTANCES : ℕ := 5

/-- Mutable module state of the master MQTT coordinator: the two acknowledgment
sets (`publishedACKCount`, `restartedACKCount`) and the collision flags. -/
structure CoordState where
  publishedACKCount : Finset ℕ
  restartedACKCount : Finset ℕ
  stopOnCollision : Bool
  isCollisionInProgress : Bool
deriving DecidableEq

/-- Acknowledgment topics the master subscribes to under the ack wildcard. -/
inductive AckTopic where
  | stopped
  | restarted
deriving DecidableEq

/-- Observable side effects of the master message handler: scheduling the
RESTART publication (the five second timer) and calling `resumeSimulation`. -/
inductive Effect where
  | scheduleRestart
  | resumeSim
deriving DecidableEq

/-- One acknowledgment message: topic plus the `instanceId` of its payload. -/
structure Msg where
  topic : AckTopic
  instanceId : ℕ
deriving DecidableEq

/-- Master message handler: add the acking identity to the matching set; when
the set size reaches `EXPECTED_INSTANCES`, clear it and fire the phase
transition (schedule the RESTART publish, respectively call resume). -/
def onMessage (s : CoordState) (t : AckTopic) (instanceId : ℕ) :
    CoordState × List Effect :=
  match t with
  | .stopped =>
    let pub := insert instanceId s.publishedACKCount
    if pub.card = EXPECTED_INSTANCES then
      ({ s with publishedACKCount := ∅ }, [Effect.scheduleRestart])
    else
      ({ s with publishedACKCount := pub }, [])
  | .restarted =>
    let res := insert instanceId s.restartedACKCount
    if res.card = EXPECTED_INSTANCES then
      ({ s with restartedACKCount := ∅ }, [Effect.resumeSim])
    else
      ({ s with restartedACKCount := res }, [])

/-- Processing of a sequence of acknowledgment messages, collecting effects. -/
def runMessages (s : CoordState) : List Msg → CoordState × List Effect
  | [] => (s, [])
  | m :: rest =>
    ((runMessages (onMessage s m.topic m.instanceId).1 rest).1,
      (onMessage s m.topic m.instanceId).2
        ++ (runMessages (onMessage s m.topic m.instanceId).1 rest).2)

/-- Number of stopped-acknowledgment messages in a sequence. -/
def stoppedCount (msgs : List Msg) : ℕ :=
  msgs.countP fun m => m.topic == AckTopic.stopped

/-- Number of restarted-acknowledgment messages in a sequence. -/
def restartedCount (msgs : List Msg) : ℕ :=
  msgs.countP fun m => m.topic == AckTopic.restarted

/-- Outcome-passing embedding of `resumeSimulation`: the fetch of the
`/control start` call either succeeds or raises; in the `try` branch the flag
is cleared after the awaits, in the `catch` branch it is cleared as well. -/
def resumeSimulation (s : CoordState) (outcome : Except String Unit) : CoordState :=
  match outcome with
  | .ok _ => { s with isCollisionInProgress := false }
  | .error _ => { s with isCollisionInProgress := false }

/-- Pendulum datum consumed by the detector: identity plus the position
pre-calculated by the instance. -/
structure PendulumData where
  id : ℕ
  position : Position2D
deriving DecidableEq

/-- Scan state of the `detectCollisions` nested loop. `published` records the
stop directives published (pairs of colliding identities), `examined` records
every index pair whose distance was computed, in scan order. -/
structure ScanSt where
  collisionDetected : Bool
  inProgress : Bool
  published : List (ℕ × ℕ)
  examined : List (ℕ × ℕ)
deriving DecidableEq

/-- Inner loop of `detectCollisions` (index `j` running over the pendulums
after `p1`): on a collision set the detected flag; when stop-on-collision is
enabled and no episode is in progress, mark in-progress, publish the stop
directive for the pair and break out of the inner loop. -/
def innerScan (stopOnCollision : Bool) (p1 : PendulumData) :
    List PendulumData → ScanSt → ScanSt
  | [], st => st
  | p2 :: rest, st =>
    if checkCollisionWith p1.position p2.position then
      if stopOnCollision && !st.inProgress then
        { st with
          collisionDetected := true
          inProgress := true
          published := st.published ++ [(p1.id, p2.id)]
          examined := st.examined ++ [(p1.id, p2.id)] }
      else
        innerScan stopOnCollision p1 rest
          { st with
            collisionDetected := true
            examined := st.examined ++ [(p1.id, p2.id)] }
    else
      innerScan stopOnCollision p1 rest
        { st with examined := st.examined ++ [(p1.id, p2.id)] }

/-- Outer loop of `detectCollisions` (index `i`): each pendulum is paired with
all later ones via the inner loop. -/
def outerScan (stopOnCollision : Bool) : List PendulumData → ScanSt → ScanSt
  | [], st => st
  | p1 :: rest, st => outerScan stopOnCollision rest (innerScan stopOnCollision p1 rest st)

/-- Result of one `detectCollisions` call. -/
structure DetectResult where
  collisionDetected : Bool
  state : CoordState
  published : List (ℕ × ℕ)
  examined : List (ℕ × ℕ)
deriving DecidableEq

/-- Embedding of `detectCollisions`: run the pairwise scan against the
coordinator state; only `isCollisionInProgress` among the module variables is
written by the scan. -/
def detectCollisions (ps : List PendulumData) (s : CoordState) : DetectResult :=
  let st := outerScan s.stopOnCollision ps
    { collisionDetected := false, inProgress := s.isCollisionInProgress,
      published := [], examined := [] }
  { collisionDetected := st.collisionDetected
    state := { s with isCollisionInProgress := st.inProgress }
    published := st.published
    examined := st.examined }

/-- Follower-side state of the instance simulation manager: `isRunning` is the
module flag, `isConfigured` stands for `simulation !== null`. -/
structure FollowerState where
  isRunning : Bool
  isConfigured : Bool
deriving DecidableEq

/-- Directive topics a follower receives under the collision wildcard. -/
inductive DirectiveTopic where
  | collisionStop
  | collisionRestart
deriving DecidableEq

/-- Observable actions of the follower message handler: the calls into the
simulation manager and the acknowledgments it publishes (with its identity). -/
inductive FollowerEffect where
  | callStop
  | callStart
  | publishStoppedAck (instanceId : ℕ)
  | publishRestartedAck (instanceId : ℕ)
deriving DecidableEq

/-- Follower message handler: a stop directive stops the loop when running and
always publishes the stopped acknowledgment; a restart directive starts the
loop when configured and not running and always publishes the restarted
acknowledgment. `simulationManager.stop` clears `isRunning`;
`simulationManager.start` sets it under the guard. -/
def followerOnMessage (instanceId : ℕ) (st : FollowerState) (t : DirectiveTopic) :
    FollowerState × List FollowerEffect :=
  match t with
  | .collisionStop =>
    if st.isRunning then
      ({ st with isRunning := false },
        [FollowerEffect.callStop, FollowerEffect.publishStoppedAck instanceId])
    else
      (st, [FollowerEffect.publishStoppedAck instanceId])
  | .collisionRestart =>
    if st.isConfigured && !st.isRunning then
      ({ st with isRunning := true },
        [FollowerEffect.callStart, FollowerEffect.publishRestartedAck instanceId])
    else
      (st, [FollowerEffect.publishRestartedAck instanceId])

/-- Master-side record for one spawned instance process. -/
structure InstanceRecord where
  id : ℕ
  configured : Bool
  isRunning : Bool
deriving DecidableEq

/-- Records created at startup by spawning all instances: each slot starts
with `configured = false` and `isRunning = false`. -/
def spawnAll (n : ℕ) : List InstanceRecord :=
  (List.range n).map fun i => { id := i, configured := false, isRunning := false }

/-- Actions accepted by the `POST /control` endpoint. -/
inductive ControlAction where
  | start
  | stop
deriving DecidableEq

/-- Registry operations of the master API, with the outcome of each forwarded
call supplied as an oracle (`true` when the instance answered successfully). -/
inductive RegistryOp where
  | configure (id : ℕ) (forwardOk : Bool)
  | control (action : ControlAction) (forwardOk : ℕ → Bool)
  | reset (forwardOk : ℕ → Bool)

/-- Effect of `POST /configure/:id` on the records: when the target record
exists and the forward succeeds, mark it configured; a failed forward is
caught and mutates nothing. -/
def configureOp (id : ℕ) (forwardOk : Bool) (regs : List InstanceRecord) :
    List InstanceRecord :=
  regs.map fun r =>
    if r.id = id ∧ forwardOk = true then { r with configured := true } else r

/-- Effect of `POST /control`: unconfigured records are skipped; for each
configured record whose forward succeeds, `isRunning` is set for `start` and
cleared for `stop`; a failed forward leaves the record unchanged. -/
def controlOp (action : ControlAction) (forwardOk : ℕ → Bool)
    (regs : List InstanceRecord) : List InstanceRecord :=
  regs.map fun r =>
    if r.configured = true then
      if forwardOk r.id then
        match action with
        | .start => { r with isRunning := true }
        | .stop => { r with isRunning := false }
      else r
    else r

/-- Effect of `POST /reset`: unconfigured records are skipped; for each
configured record whose stop forward succeeds, clear `isRunning` and then
clear `configured`; a failed forward leaves the record unchanged. -/
def resetOp (forwardOk : ℕ → Bool) (regs : List InstanceRecord) :
    List InstanceRecord :=
  regs.map fun r =>
    if r.configured = true then
      if forwardOk r.id then { r with isRunning := false, configured := false } else r
    else r

/-- Application of one registry operation. -/
def applyOp : RegistryOp → List InstanceRecord → List InstanceRecord
  | .configure id ok, regs => configureOp id ok regs
  | .control a ok, regs => controlOp a ok regs
  | .reset ok, regs => resetOp ok regs

/-- Registry states reachable from startup through the API operations. -/
def Reachable (n : ℕ) (regs : List InstanceRecord) : Prop :=
  ∃ ops : List RegistryOp, regs = ops.foldl (fun s o => applyOp o s) (spawnAll n)

/-- Core registry invariant: a running record is configured. -/
def RunningImpliesConfigured (regs : List InstanceRecord) : Prop :=
  ∀ r ∈ regs, r.isRunning = true → r.configured = true

/-- Physics configuration held by a `PendulumSimulation`. -/
structure PendulumConfig where
  pivotX : ℚ
  angle : ℚ
  angularVelocity : ℚ
  mass : ℚ
  length : ℚ
  gravity : ℚ
deriving DecidableEq

/-- Body of a `POST /configure` request: every numeric field the caller may
supply, `none` for an absent field. -/
structure ConfigureRequest where
  pivotX : Option ℚ
  angle : Option ℚ
  angularVelocity : Option ℚ
  mass : Option ℚ
  length : Option ℚ
  gravity : Option ℚ
  maxTime : Option ℚ
deriving DecidableEq

/-- Instance `POST /configure` handler: reject when a required field is
missing; otherwise build the config with `angularVelocity := 0` and the
`maxTime` default of 60, and hand both to the simulation manager. -/
def configureHandler (req : ConfigureRequest) :
    Except (List String) (PendulumConfig × ℚ) :=
  match req.pivotX, req.angle, req.mass, req.length, req.gravity with
  | some pivotX, some angle, some mass, some len, some gravity =>
    Except.ok
      ({ pivotX := pivotX, angle := angle, angularVelocity := 0,
         mass := mass, length := len, gravity := gravity },
        req.maxTime.getD 60)
  | _, _, _, _, _ =>
    Except.error ["pivotX", "angle", "mass", "length", "gravity"]

/-- State of a `PendulumSimulation`. -/
structure SimulationState where
  angle : ℚ
  angularVelocity : ℚ
  time : ℚ
  position : ℝ × ℝ

/-- Bob position from angle, length and pivot, as in `calculatePosition`. -/
noncomputable def calculatePosition (config : PendulumConfig) (angle : ℚ) : ℝ × ℝ :=
  ((config.pivotX : ℝ) + (config.length : ℝ) * Real.sin (angle : ℝ),
    (config.length : ℝ) * (1 - Real.cos (angle : ℝ)))

/-- Initial state built by the `PendulumSimulation` constructor. -/
noncomputable def initState (config : PendulumConfig) : SimulationState :=
  { angle := config.angle
    angularVelocity := config.angularVelocity
    time := 0
    position := calculatePosition config config.angle }

/-- C1: the collision detector reports a collision for a pair of bodies iff
the Euclidean distance between their 2-D positions is strictly less than the
sum of the fixed radii (2 + 2 = 4 cm); distance exactly 4 is not a collision;
(0,0)/(0,3) collides while (0,0)/(0,4) and (0,0)/(0,4.01) do not. -/
theorem checkCollisionWith_spec :
    (∀ a b : Position2D, checkCollisionWith a b ↔ dist (toPoint a) (toPoint b) < 4)
    ∧ (∀ a b : Position2D, ¬ checkCollisionWith a b ↔ 4 ≤ dist (toPoint a) (toPoint b))
    ∧ MIN_COLLISION_DISTANCE = 2 + 2
    ∧ checkCollisionWith ⟨0, 0⟩ ⟨0, 3⟩
    ∧ ¬ checkCollisionWith ⟨0, 0⟩ ⟨0, 4⟩
    ∧ ¬ checkCollisionWith ⟨0, 0⟩ ⟨0, 401 / 100⟩ := by
  have key : ∀ a b : Position2D,
      checkCollisionWith a b ↔ dist (toPoint a) (toPoint b) < 4 := by
    intro a b
    rw [dist_toPoint]
    unfold checkCollisionWith MIN_COLLISION_DISTANCE COLLISION_RADIUS
    norm_num
  refine ⟨key, fun a b => ?_, by norm_num [MIN_COLLISION_DISTANCE, COLLISION_RADIUS],
    ?_, ?_, ?_⟩
  · rw [key a b]
    exact not_lt
  · rw [checkCollisionWith_iff_distSq]
    norm_num [distSq]
  · rw [checkCollisionWith_iff_distSq]
    norm_num [distSq]
  · rw [checkCollisionWith_iff_distSq]
    norm_num [distSq]

/-- C6: a duplicate acknowledgment received before quorum leaves the
coordinator state unchanged and fires no transition. -/
theorem ack_duplicate_noop (s : CoordState) (instanceId : ℕ)
    (hmem : instanceId ∈ s.publishedACKCount)
    (hlt : s.publishedACKCount.card < EXPECTED_INSTANCES) :
    onMessage s AckTopic.stopped instanceId = (s, []) := by
  unfold onMessage
  rw [Finset.insert_eq_self.mpr hmem, if_neg (Nat.ne_of_lt hlt)]

/-- Witness for C6 at a concrete state: the stopped-by set `{2}` absorbs a
second acknowledgment from identity 2 without change or transition. -/
theorem ack_duplicate_noop_witness :
    onMessage ⟨{2}, ∅, true, true⟩ AckTopic.stopped 2 = (⟨{2}, ∅, true, true⟩, []) :=
  ack_duplicate_noop ⟨{2}, ∅, true, true⟩ 2 (by decide) (by decide)

/-- C7: whether the final resume call succeeds or raises, `resumeSimulation`
leaves the in-progress flag cleared. -/
theorem resumeSimulation_clears_flag :
    ∀ (s : CoordState) (outcome : Except String Unit),
      (resumeSimulation s outcome).isCollisionInProgress = false := by
  intro s outcome
  cases outcome <;> rfl

/-- C8: a follower acknowledges every directive with its own identity; it
calls stop only when running, calls start only when configured and not
running, and its flags move accordingly. -/
theorem follower_always_acks :
    ∀ (instanceId : ℕ) (st : FollowerState),
      (FollowerEffect.publishStoppedAck instanceId
          ∈ (followerOnMessage instanceId st DirectiveTopic.collisionStop).2
        ∧ (FollowerEffect.callStop
            ∈ (followerOnMessage instanceId st DirectiveTopic.collisionStop).2
          ↔ st.isRunning = true)
        ∧ (followerOnMessage instanceId st DirectiveTopic.collisionStop).1.isRunning = false
        ∧ (followerOnMessage instanceId st DirectiveTopic.collisionStop).1.isConfigured
            = st.isConfigured)
      ∧ (FollowerEffect.publishRestartedAck instanceId
          ∈ (followerOnMessage instanceId st DirectiveTopic.collisionRestart).2
        ∧ (FollowerEffect.callStart
            ∈ (followerOnMessage instanceId st DirectiveTopic.collisionRestart).2
          ↔ st.isConfigured = true ∧ st.isRunning = false)
        ∧ (followerOnMessage instanceId st DirectiveTopic.collisionRestart).1.isRunning
            = (st.isConfigured || st.isRunning)
        ∧ (followerOnMessage instanceId st DirectiveTopic.collisionRestart).1.isConfigured
            = st.isConfigured) := by
  intro instanceId st
  unfold followerOnMessage
  rcases st with ⟨hr, hc⟩
  cases hr <;> cases hc <;> simp

/-- C2 counterexample: with two configured instances (identities 0 and 1) at
episode start, both acknowledgments arrive and the stopped-by set contains
every configured identity, yet the quorum transition does not fire — the
handler compares against the fixed constant `EXPECTED_INSTANCES`, not the
number of instances configured at episode start. -/
theorem quorum_ignores_configured_counterexample :
    ({0, 1} : Finset ℕ) ⊆ (runMessages ⟨∅, ∅, true, true⟩
        [⟨AckTopic.stopped, 0⟩, ⟨AckTopic.stopped, 1⟩]).1.publishedACKCount
    ∧ (runMessages ⟨∅, ∅, true, true⟩
        [⟨AckTopic.stopped, 0⟩, ⟨AckTopic.stopped, 1⟩]).2 = [] := by decide

/-- C2 amended: the quorum that triggers the Stopped (and Resumed) transition
is the fixed compile-time constant `EXPECTED_INSTANCES = 5` (equal to
`MAX_INSTANCES`): the transition fires exactly when the acknowledgment set
size reaches 5, independent of which instances are configured. -/
theorem quorum_is_fixed_constant :
    EXPECTED_INSTANCES = 5 ∧ EXPECTED_INSTANCES = MAX_INSTANCES
    ∧ (∀ (s : CoordState) (instanceId : ℕ),
        (onMessage s AckTopic.stopped instanceId).2 = [Effect.scheduleRestart]
          ↔ (insert instanceId s.publishedACKCount).card = EXPECTED_INSTANCES)
    ∧ (∀ (s : CoordState) (instanceId : ℕ),
        (onMessage s AckTopic.restarted instanceId).2 = [Effect.resumeSim]
          ↔ (insert instanceId s.restartedACKCount).card = EXPECTED_INSTANCES) := by
  refine ⟨rfl, rfl, ?_, ?_⟩ <;>
    · intro s instanceId
      simp only [onMessage]
      split <;> simp_all

theorem runMessages_stop_fire_bound (msgs : List Msg) :
    ∀ s : CoordState,
      EXPECTED_INSTANCES * ((runMessages s msgs).2.count Effect.scheduleRestart)
        + (runMessages s msgs).1.publishedACKCount.card
      ≤ s.publishedACKCount.card + stoppedCount msgs := by
  induction msgs with
  | nil =>
    intro s
    simp [runMessages, stoppedCount]
  | cons m rest ih =>
    intro s
    rcases m with ⟨t, instanceId⟩
    cases t with
    | stopped =>
      by_cases h : (insert instanceId s.publishedACKCount).card = 5
      · have hc : 5 ≤ s.publishedACKCount.card + 1 :=
          h ▸ Finset.card_insert_le _ _
        have hih := ih { s with publishedACKCount := ∅ }
        simp only [runMessages, onMessage, EXPECTED_INSTANCES, if_pos h, List.count_append,
          stoppedCount, List.countP_cons, Finset.card_empty] at hih ⊢
        simp at hih ⊢
        omega
      · have hc : (insert instanceId s.publishedACKCount).card
            ≤ s.publishedACKCount.card + 1 := Finset.card_insert_le _ _
        have hih := ih { s with publishedACKCount := insert instanceId s.publishedACKCount }
        simp only [runMessages, onMessage, EXPECTED_INSTANCES, if_neg h, List.count_append,
          stoppedCount, List.countP_cons] at hih ⊢
        simp at hih ⊢
        omega
    | restarted =>
      by_cases h : (insert instanceId s.restartedACKCount).card = 5
      · have hih := ih { s with restartedACKCount := ∅ }
        simp only [runMessages, onMessage, EXPECTED_INSTANCES, if_pos h, List.count_append,
          stoppedCount, List.countP_cons] at hih ⊢
        simp at hih ⊢
        omega
      · have hih := ih { s with restartedACKCount := insert instanceId s.restartedACKCount }
        simp only [runMessages, onMessage, EXPECTED_INSTANCES, if_neg h, List.count_append,
          stoppedCount, List.countP_cons] at hih ⊢
        simp at hih ⊢
        omega

theorem runMessages_restart_fire_bound (msgs : List Msg) :
    ∀ s : CoordState,
      EXPECTED_INSTANCES * ((runMessages s msgs).2.count Effect.resumeSim)
        + (runMessages s msgs).1.restartedACKCount.card
      ≤ s.restartedACKCount.card + restartedCount msgs := by
  induction msgs with
  | nil =>
    intro s
    simp [runMessages, restartedCount]
  | cons m rest ih =>
    intro s
    rcases m with ⟨t, instanceId⟩
    cases t with
    | restarted =>
      by_cases h : (insert instanceId s.restartedACKCount).card = 5
      · have hc : 5 ≤ s.restartedACKCount.card + 1 :=
          h ▸ Finset.card_insert_le _ _
        have hih := ih { s with restartedACKCount := ∅ }
        simp only [runMessages, onMessage, EXPECTED_INSTANCES, if_pos h, List.count_append,
          restartedCount, List.countP_cons, Finset.card_empty] at hih ⊢
        simp at hih ⊢
        omega
      · have hc : (insert instanceId s.restartedACKCount).card
            ≤ s.restartedACKCount.card + 1 := Finset.card_insert_le _ _
        have hih := ih { s with restartedACKCount := insert instanceId s.restartedACKCount }
        simp only [runMessages, onMessage, EXPECTED_INSTANCES, if_neg h, List.count_append,
          restartedCount, List.countP_cons] at hih ⊢
        simp at hih ⊢
        omega
    | stopped =>
      by_cases h : (insert instanceId s.publishedACKCount).card = 5
      · have hih := ih { s with publishedACKCount := ∅ }
        simp only [runMessages, onMessage, EXPECTED_INSTANCES, if_pos h, List.count_append,
          restartedCount, List.countP_cons] at hih ⊢
        simp at hih ⊢
        omega
      · have hih := ih { s with publishedACKCount := insert instanceId s.publishedACKCount }
        simp only [runMessages, onMessage, EXPECTED_INSTANCES, if_neg h, List.count_append,
          restartedCount, List.countP_cons] at hih ⊢
        simp at hih ⊢
        omega

/-- C4 amended: each quorum firing consumes a full quorum's worth of
acknowledgments: over any message sequence, 5 times the number of stop-quorum
(resp. restart-quorum) firings is at most the initial set size plus the number
of acknowledgments of that phase received; in particular fewer than 5 further
acknowledgments after a firing cannot re-fire it. -/
theorem quorum_fire_bound :
    ∀ (s : CoordState) (msgs : List Msg),
      EXPECTED_INSTANCES * ((runMessages s msgs).2.count Effect.scheduleRestart)
        ≤ s.publishedACKCount.card + stoppedCount msgs
      ∧ EXPECTED_INSTANCES * ((runMessages s msgs).2.count Effect.resumeSim)
        ≤ s.restartedACKCount.card + restartedCount msgs := by
  intro s msgs
  have h1 := runMessages_stop_fire_bound msgs s
  have h2 := runMessages_restart_fire_bound msgs s
  omega

/-- Acknowledgment sequence in which all five identities acknowledge the stop
directive and each acknowledgment is then delivered a second time. -/
def refireMsgs : List Msg :=
  [⟨AckTopic.stopped, 0⟩, ⟨AckTopic.stopped, 1⟩, ⟨AckTopic.stopped, 2⟩,
    ⟨AckTopic.stopped, 3⟩, ⟨AckTopic.stopped, 4⟩,
    ⟨AckTopic.stopped, 0⟩, ⟨AckTopic.stopped, 1⟩, ⟨AckTopic.stopped, 2⟩,
    ⟨AckTopic.stopped, 3⟩, ⟨AckTopic.stopped, 4⟩]

/-- C4 counterexample: within a single episode (the in-progress flag stays
set throughout), duplicate deliveries of the same five acknowledgments make
the stop-quorum transition fire a second time. -/
theorem quorum_refires_counterexample :
    (runMessages ⟨∅, ∅, true, true⟩ refireMsgs).2.count Effect.scheduleRestart = 2
    ∧ (runMessages ⟨∅, ∅, true, true⟩ refireMsgs).1.isCollisionInProgress = true := by
  decide

theorem innerScan_pub (stopOn : Bool) (p1 : PendulumData) (l : List PendulumData) :
    ∀ st : ScanSt,
      ((innerScan stopOn p1 l st).published = st.published
        ∧ (innerScan stopOn p1 l st).inProgress = st.inProgress)
      ∨ (stopOn = true ∧ st.inProgress = false
        ∧ (innerScan stopOn p1 l st).inProgress = true
        ∧ ∃ pr, (innerScan stopOn p1 l st).published = st.published ++ [pr]) := by
  induction l with
  | nil =>
    intro st
    left
    exact ⟨rfl, rfl⟩
  | cons p2 rest ih =>
    intro st
    simp only [innerScan]
    by_cases hcol : checkCollisionWith p1.position p2.position
    · rw [if_pos hcol]
      by_cases hguard : (stopOn && !st.inProgress) = true
      · rw [if_pos hguard]
        simp only [Bool.and_eq_true, Bool.not_eq_true'] at hguard
        right
        exact ⟨hguard.1, hguard.2, rfl, (p1.id, p2.id), rfl⟩
      · rw [if_neg hguard]
        exact ih { st with
          collisionDetected := true
          examined := st.examined ++ [(p1.id, p2.id)] }
    · rw [if_neg hcol]
      exact ih { st with examined := st.examined ++ [(p1.id, p2.id)] }

theorem outerScan_pub (stopOn : Bool) (l : List PendulumData) :
    ∀ st : ScanSt,
      ((outerScan stopOn l st).published = st.published
        ∧ (outerScan stopOn l st).inProgress = st.inProgress)
      ∨ (stopOn = true ∧ st.inProgress = false
        ∧ (outerScan stopOn l st).inProgress = true
        ∧ ∃ pr, (outerScan stopOn l st).published = st.published ++ [pr]) := by
  induction l with
  | nil =>
    intro st
    left
    exact ⟨rfl, rfl⟩
  | cons p1 rest ih =>
    intro st
    simp only [outerScan]
    rcases innerScan_pub stopOn p1 rest st with ⟨h1, h2⟩ | ⟨hs, h0, h3, pr, h4⟩
    · rcases ih (innerScan stopOn p1 rest st) with ⟨g1, g2⟩ | ⟨gs, g0, g3, qr, g4⟩
      · left
        exact ⟨g1.trans h1, g2.trans h2⟩
      · right
        refine ⟨gs, h2 ▸ g0, g3, qr, ?_⟩
        rw [g4, h1]
    · rcases ih (innerScan stopOn p1 rest st) with ⟨g1, g2⟩ | ⟨gs, g0, g3, qr, g4⟩
      · right
        exact ⟨hs, h0, g2.trans h3, pr, g1.trans h4⟩
      · rw [h3] at g0
        exact absurd g0 (by simp)

/-- C5 amended: after the first episode-triggering pair the detector breaks
out of the inner loop only and keeps examining pairs with a later first
index, but those pairs are not acted upon: at most one stop directive is
published per detection cycle, none when an episode is already in progress,
and a publish leaves the in-progress flag set. -/
theorem detect_at_most_one_episode :
    ∀ (ps : List PendulumData) (s : CoordState),
      (detectCollisions ps s).published.length ≤ 1
      ∧ (s.isCollisionInProgress = true → (detectCollisions ps s).published = [])
      ∧ ((detectCollisions ps s).published ≠ [] →
          (detectCollisions ps s).state.isCollisionInProgress = true) := by
  intro ps s
  have h := outerScan_pub s.stopOnCollision ps
    { collisionDetected := false, inProgress := s.isCollisionInProgress,
      published := [], examined := [] }
  simp only [detectCollisions]
  rcases h with ⟨h1, h2⟩ | ⟨hs, h0, h3, pr, h4⟩
  · refine ⟨?_, fun _ => h1, fun hne => absurd h1 hne⟩
    rw [h1]
    simp
  · refine ⟨?_, fun hip => absurd (h0.symm.trans hip) (by simp), fun _ => h3⟩
    rw [h4]
    simp

/-- Witness for C5 at a concrete input: a scan over two colliding bodies with
no episode in progress publishes once, and the same scan started with the
in-progress flag set publishes nothing. -/
theorem detect_at_most_one_episode_witness :
    (detectCollisions [⟨0, ⟨0, 0⟩⟩, ⟨1, ⟨0, 1⟩⟩] ⟨∅, ∅, true, false⟩).published.length ≤ 1
    ∧ (detectCollisions [⟨0, ⟨0, 0⟩⟩, ⟨1, ⟨0, 1⟩⟩] ⟨∅, ∅, true, true⟩).published = [] :=
  ⟨(detect_at_most_one_episode [⟨0, ⟨0, 0⟩⟩, ⟨1, ⟨0, 1⟩⟩] ⟨∅, ∅, true, false⟩).1,
    (detect_at_most_one_episode [⟨0, ⟨0, 0⟩⟩, ⟨1, ⟨0, 1⟩⟩] ⟨∅, ∅, true, true⟩).2.1 rfl⟩

/-- C3 amended: the episode-start transition fires only when the in-progress
flag is false (and stop-on-collision is enabled); its effect is to set the
in-progress flag and publish one stop directive — it does not clear the two
acknowledgment sets, which the scan leaves untouched. -/
theorem collision_transition_effects :
    ∀ (ps : List PendulumData) (s : CoordState),
      ((detectCollisions ps s).published ≠ [] →
        s.isCollisionInProgress = false ∧ s.stopOnCollision = true
          ∧ (detectCollisions ps s).state.isCollisionInProgress = true)
      ∧ (s.isCollisionInProgress = true → (detectCollisions ps s).state = s)
      ∧ (detectCollisions ps s).state.publishedACKCount = s.publishedACKCount
      ∧ (detectCollisions ps s).state.restartedACKCount = s.restartedACKCount := by
  intro ps s
  have h := outerScan_pub s.stopOnCollision ps
    { collisionDetected := false, inProgress := s.isCollisionInProgress,
      published := [], examined := [] }
  simp only [detectCollisions]
  rcases h with ⟨h1, h2⟩ | ⟨hs, h0, h3, pr, h4⟩
  · refine ⟨fun hne => absurd h1 hne, fun _ => ?_, by trivial, by trivial⟩
    rw [h2]
  · exact ⟨fun _ => ⟨h0, hs, h3⟩,
      fun hip => absurd (h0.symm.trans hip) (by simp), by trivial, by trivial⟩

/-- Witness for C3 at a concrete input: with no episode in progress the
transition fires on two colliding bodies, sets the in-progress flag and
leaves the acknowledgment sets untouched; with the flag already set the
coordinator state is unchanged. -/
theorem collision_transition_effects_witness :
    (detectCollisions [⟨0, ⟨0, 0⟩⟩, ⟨1, ⟨0, 1⟩⟩]
        ⟨∅, ∅, true, true⟩).state = ⟨∅, ∅, true, true⟩
    ∧ (detectCollisions [⟨0, ⟨0, 0⟩⟩, ⟨1, ⟨0, 1⟩⟩]
        ⟨{7}, ∅, true, false⟩).state.publishedACKCount = {7} :=
  ⟨(collision_transition_effects [⟨0, ⟨0, 0⟩⟩, ⟨1, ⟨0, 1⟩⟩] ⟨∅, ∅, true, true⟩).2.1 rfl,
    (collision_transition_effects [⟨0, ⟨0, 0⟩⟩, ⟨1, ⟨0, 1⟩⟩] ⟨{7}, ∅, true, false⟩).2.2.1⟩

/-- C5 counterexample: with colliding pairs (0,1) and (2,3), the scan
publishes for the first pair but keeps examining the pairs (1,2), (1,3) and
(2,3) that come after it — the break leaves the inner loop only, so the
detector does not stop scanning further pairs. -/
theorem scan_continues_counterexample :
    (detectCollisions
        [⟨0, ⟨0, 0⟩⟩, ⟨1, ⟨0, 1⟩⟩, ⟨2, ⟨100, 0⟩⟩, ⟨3, ⟨100, 1⟩⟩]
        ⟨∅, ∅, true, false⟩).examined = [(0, 1), (1, 2), (1, 3), (2, 3)]
    ∧ (detectCollisions
        [⟨0, ⟨0, 0⟩⟩, ⟨1, ⟨0, 1⟩⟩, ⟨2, ⟨100, 0⟩⟩, ⟨3, ⟨100, 1⟩⟩]
        ⟨∅, ∅, true, false⟩).published = [(0, 1)] := by
  have h01 : checkCollisionWith ⟨0, 0⟩ ⟨0, 1⟩ := by
    rw [checkCollisionWith_iff_distSq]
    norm_num [distSq]
  have h12 : ¬ checkCollisionWith ⟨0, 1⟩ ⟨100, 0⟩ := by
    rw [checkCollisionWith_iff_distSq]
    norm_num [distSq]
  have h13 : ¬ checkCollisionWith ⟨0, 1⟩ ⟨100, 1⟩ := by
    rw [checkCollisionWith_iff_distSq]
    norm_num [distSq]
  have h23 : checkCollisionWith ⟨100, 0⟩ ⟨100, 1⟩ := by
    rw [checkCollisionWith_iff_distSq]
    norm_num [distSq]
  constructor <;> simp [detectCollisions, outerScan, innerScan, h01, h12, h13, h23]

/-- C3 counterexample: the episode-start transition fires (one stop directive
published, in-progress set) while a stale identity sits in the stopped-by
set, and the set is not cleared — the transition's effect does not include
clearing the acknowledgment sets, so an episode can start with a non-empty
set. -/
theorem stale_acks_survive_transition_counterexample :
    (detectCollisions [⟨0, ⟨0, 0⟩⟩, ⟨1, ⟨0, 1⟩⟩] ⟨{3}, ∅, true, false⟩).published = [(0, 1)]
    ∧ (detectCollisions [⟨0, ⟨0, 0⟩⟩, ⟨1, ⟨0, 1⟩⟩]
        ⟨{3}, ∅, true, false⟩).state.isCollisionInProgress = true
    ∧ (detectCollisions [⟨0, ⟨0, 0⟩⟩, ⟨1, ⟨0, 1⟩⟩]
        ⟨{3}, ∅, true, false⟩).state.publishedACKCount = {3}
    ∧ ({3} : Finset ℕ) ≠ (∅ : Finset ℕ) := by
  have h01 : checkCollisionWith ⟨0, 0⟩ ⟨0, 1⟩ := by
    rw [checkCollisionWith_iff_distSq]
    norm_num [distSq]
  refine ⟨?_, ?_, ?_, by decide⟩ <;>
    simp [detectCollisions, outerScan, innerScan, h01]

theorem applyOp_preserves (op : RegistryOp) (regs : List InstanceRecord)
    (h : RunningImpliesConfigured regs) :
    RunningImpliesConfigured (applyOp op regs) := by
  cases op with
  | configure id ok =>
    intro r' hr'
    simp only [applyOp, configureOp, List.mem_map] at hr'
    obtain ⟨r, hrm, rfl⟩ := hr'
    split_ifs with hcond
    · intro _
      rfl
    · exact h r hrm
  | control action fwd =>
    intro r' hr'
    simp only [applyOp, controlOp, List.mem_map] at hr'
    obtain ⟨r, hrm, rfl⟩ := hr'
    by_cases hc : r.configured = true
    · rw [if_pos hc]
      by_cases hok : fwd r.id = true
      · rw [if_pos hok]
        cases action with
        | start => intro _; exact hc
        | stop => intro _; exact hc
      · rw [if_neg hok]
        exact h r hrm
    · rw [if_neg hc]
      exact h r hrm
  | reset fwd =>
    intro r' hr'
    simp only [applyOp, resetOp, List.mem_map] at hr'
    obtain ⟨r, hrm, rfl⟩ := hr'
    by_cases hc : r.configured = true
    · rw [if_pos hc]
      by_cases hok : fwd r.id = true
      · rw [if_pos hok]
        intro hrun
        exact absurd hrun (by simp)
      · rw [if_neg hok]
        exact h r hrm
    · rw [if_neg hc]
      exact h r hrm

theorem foldl_preserves (ops : List RegistryOp) :
    ∀ init : List InstanceRecord, RunningImpliesConfigured init →
      RunningImpliesConfigured (ops.foldl (fun s o => applyOp o s) init) := by
  induction ops with
  | nil =>
    intro init h
    exact h
  | cons op rest ih =>
    intro init h
    exact ih _ (applyOp_preserves op init h)

/-- C9: in every registry state reachable through the master API operations
(configure one instance, start or stop all configured, reset all), a record
with the running flag set also has the configured flag set. -/
theorem registry_running_implies_configured :
    ∀ (n : ℕ) (regs : List InstanceRecord),
      Reachable n regs → RunningImpliesConfigured regs := by
  intro n regs hreach
  obtain ⟨ops, rfl⟩ := hreach
  refine foldl_preserves ops (spawnAll n) ?_
  intro r hr
  simp only [spawnAll, List.mem_map] at hr
  obtain ⟨i, _, rfl⟩ := hr
  intro hrun
  exact absurd hrun (by simp)

/-- Witness for C9 at a concrete reachable state: after configuring instance
0 and starting all configured instances, the invariant holds. -/
theorem registry_running_implies_configured_witness :
    RunningImpliesConfigured
      (applyOp (RegistryOp.control ControlAction.start fun _ => true)
        (applyOp (RegistryOp.configure 0 true) (spawnAll 5))) :=
  registry_running_implies_configured 5 _
    ⟨[RegistryOp.configure 0 true,
      RegistryOp.control ControlAction.start fun _ => true], rfl⟩

/-- C10: every configuration accepted by the instance configure endpoint
yields a simulation whose initial angular velocity is 0, whatever
`angularVelocity` the request carried; the caller controls exactly `pivotX`,
`angle`, `mass`, `length`, `gravity` and `maxTime` (default 60). -/
theorem configure_starts_at_rest :
    ∀ (req : ConfigureRequest) (cfg : PendulumConfig) (maxTime : ℚ),
      configureHandler req = Except.ok (cfg, maxTime) →
      cfg.angularVelocity = 0 ∧ (initState cfg).angularVelocity = 0
      ∧ req.pivotX = some cfg.pivotX ∧ req.angle = some cfg.angle
      ∧ req.mass = some cfg.mass ∧ req.length = some cfg.length
      ∧ req.gravity = some cfg.gravity ∧ maxTime = req.maxTime.getD 60 := by
  intro req cfg mt h
  rcases hp : req.pivotX with _ | pivotX <;>
  rcases ha : req.angle with _ | angle <;>
  rcases hm : req.mass with _ | mass <;>
  rcases hl : req.length with _ | len <;>
  rcases hg : req.gravity with _ | gravity <;>
  simp only [configureHandler, hp, ha, hm, hl, hg, Except.ok.injEq,
    Prod.mk.injEq, reduceCtorEq] at h
  obtain ⟨h1, h2⟩ := h
  subst h1
  subst h2
  refine ⟨rfl, rfl, ?_, ?_, ?_, ?_, ?_, rfl⟩ <;> simp [hp, ha, hm, hl, hg]

/-- Witness for C10 at a concrete request that even supplies an angular
velocity of 99: the accepted configuration and initial state still carry
angular velocity 0. -/
theorem configure_starts_at_rest_witness :
    (configureHandler ⟨some 1, some (1 / 2), some 99, some 1, some 50, some (981 / 100), none⟩
        = Except.ok (⟨1, 1 / 2, 0, 1, 50, 981 / 100⟩, 60))
    ∧ (⟨1, 1 / 2, 0, 1, 50, 981 / 100⟩ : PendulumConfig).angularVelocity = 0
    ∧ (initState ⟨1, 1 / 2, 0, 1, 50, 981 / 100⟩).angularVelocity = 0 :=
  ⟨rfl, rfl,
    (configure_starts_at_rest
      ⟨some 1, some (1 / 2), some 99, some 1, some 50, some (981 / 100), none⟩
      ⟨1, 1 / 2, 0, 1, 50, 981 / 100⟩ 60 rfl).2.1⟩

end Pendulum
